import Mathlib

/-!
Shallow embedding of `src/sys/windows/window.rs` from trayicon-rs.

The Windows message-handling code is modelled as pure functions: OS calls
whose results the code consumes (`CreateWindowExA`, `SetWindowSubclass`,
`GetCursorPos`, `RegisterWindowMessageA`, channel connectivity) are passed
in as environment records, and OS calls the code issues (`Shell_NotifyIcon`
add, `sender.send`, `SetForegroundWindow`, `TrackPopupMenu`, `println!`,
`PostQuitMessage`) are recorded as an effect list.
-/

namespace TrayIcon

/-- `winuser::WM_CREATE`. -/
def WM_CREATE : Nat := 0x0001

/-- `winuser::WM_DESTROY`. -/
def WM_DESTROY : Nat := 0x0002

/-- `winuser::WM_CLOSE`. -/
def WM_CLOSE : Nat := 0x0010

/-- `winuser::WM_MENUCOMMAND`. -/
def WM_MENUCOMMAND : Nat := 0x0126

/-- `winuser::WM_LBUTTONUP`. -/
def WM_LBUTTONUP : Nat := 0x0202

/-- `winuser::WM_LBUTTONDBLCLK`. -/
def WM_LBUTTONDBLCLK : Nat := 0x0203

/-- `winuser::WM_RBUTTONUP`. -/
def WM_RBUTTONUP : Nat := 0x0205

/-- `winuser::WM_USER`. -/
def WM_USER : Nat := 0x0400

/-- Modelled from the spec: `msgs::WM_USER_CREATE`, the user-defined
window-created notification code posted by `winproc` on `WM_CREATE`.
The module `src/sys/windows/msgs.rs` is not in the sources; the spec only
requires a user-range code distinct from the standard messages. -/
def WM_USER_CREATE : Nat := WM_USER + 1

/-- Modelled from the spec: `msgs::WM_USER_TRAYICON`, the user-defined
notification-icon interaction message code.  The module
`src/sys/windows/msgs.rs` is not in the sources; the spec only requires a
user-range code distinct from the standard messages. -/
def WM_USER_TRAYICON : Nat := WM_USER + 2

/-- `crate::Error` (two variants used by this module: `Error::OsError` and
`Error::IconLoadingFailed`). -/
inductive Error where
  | osError
  | iconLoadingFailed
deriving DecidableEq, Repr

/-- Modelled from the spec: `hicon::WinHIcon`, an owned native icon
resource (its decoding internals are out of scope; only its identity
matters here). -/
structure WinHIcon where
  handle : Nat
deriving DecidableEq, Repr

/-- Modelled from the spec: `notifyicon::NotifyIcon`, the notification-area
icon state; it holds the currently displayed icon resource, can be attached
to a window's notification area, and supports swapping the icon. -/
structure NotifyIcon where
  hicon : WinHIcon
deriving DecidableEq, Repr

/-- Modelled from the spec: `NotifyIcon::set_icon` swaps the displayed
icon resource on the live notification icon. -/
def NotifyIcon.set_icon (n : NotifyIcon) (icon : WinHIcon) : NotifyIcon :=
  { n with hicon := icon }

/-- Modelled from the spec: `hmenu::WinHMenu`, an owned native context-menu
handle. -/
structure WinHMenu where
  handle : Nat
deriving DecidableEq, Repr

/-- `std::sync::mpsc::Sender<T>` endpoint; only its identity is part of the
adapter's state, connectivity of the paired receiver is environmental. -/
structure Sender (T : Type) where
  id : Nat
deriving DecidableEq, Repr

/-- `Sender::send`: succeeds exactly when the receiver is still connected.
The handler code discards this result (`let _ = ...`). -/
def Sender.send (receiverConnected : Bool) (_s : Sender T) (_e : T) :
    Except Unit Unit :=
  if receiverConnected then Except.ok () else Except.error ()

/-- The tray-window record `TrayIconWindow<T>` (src/sys/windows/window.rs,
lines 20-32).  `menu_events` is the `HashMap<usize, T>` represented as an
association list. -/
structure TrayIconWindow (T : Type) where
  hwnd : Nat
  notify_icon : NotifyIcon
  hmenu : Option WinHMenu
  click_event : Option T
  double_click_event : Option T
  right_click_event : Option T
  sender : Sender T
  menu_events : Option (List (Nat × T))
deriving DecidableEq, Repr

/-- Effects the message handler issues to the outside world, in order. -/
inductive Effect (T : Type) where
  /-- `RegisterWindowMessageA("TaskbarCreated")`. -/
  | registerTaskbarCreated
  /-- `window.notify_icon.add(hwnd)` — attach the icon to the
  notification area. -/
  | addIcon (hwnd : Nat)
  /-- `window.sender.send(e.clone())` — a send attempted on the channel. -/
  | send (e : T)
  /-- `winuser::SetForegroundWindow(hwnd)`. -/
  | setForeground (hwnd : Nat)
  /-- `menu.track(hwnd, x, y)` — display the context menu at `(x, y)`. -/
  | track (hwnd : Nat) (x y : Int)
  /-- `println!("Menu!")`. -/
  | printMenu
  /-- `PostQuitMessage(0)`. -/
  | postQuit
deriving DecidableEq, Repr

/-- The control result of the subclass procedure: either the message was
handled (`return 0`) or passed to `commctrl::DefSubclassProc`. -/
inductive LResult where
  | handled
  | defSubclass
deriving DecidableEq, Repr

/-- Environment consumed by `subproc`: the cursor position reported by
`GetCursorPos`, the id returned by `RegisterWindowMessageA`, and whether
the channel receiver is still connected. -/
structure SubprocEnv where
  cursorX : Int
  cursorY : Int
  taskbarCreatedMsgId : Nat
  receiverConnected : Bool
deriving DecidableEq, Repr

/-- Output of one `subproc` invocation: the (unchanged) window record, the
updated `WM_TASKBARCREATED` static, the effect list and the control
result. -/
structure SubprocOut (T : Type) where
  window : TrayIconWindow T
  wmTaskbarCreated : Nat
  effects : List (Effect T)
  result : LResult
deriving DecidableEq, Repr

/-- The `msgs::WM_USER_TRAYICON` dispatch on `lparam as u32`
(src/sys/windows/window.rs, lines 159-192). -/
def trayIconDispatch (env : SubprocEnv) (window : TrayIconWindow T)
    (hwnd lparam : Nat) : List (Effect T) :=
  if lparam = WM_LBUTTONUP then
    match window.click_event with
    | some e =>
        let _ := window.sender.send env.receiverConnected e
        [Effect.send e]
    | none => []
  else if lparam = WM_RBUTTONUP then
    (match window.right_click_event with
     | some e =>
         let _ := window.sender.send env.receiverConnected e
         [Effect.send e]
     | none => []) ++
    (match window.hmenu with
     | some _menu =>
         [Effect.setForeground hwnd,
          Effect.track hwnd env.cursorX env.cursorY]
     | none => [])
  else if lparam = WM_LBUTTONDBLCLK then
    match window.double_click_event with
    | some e =>
        let _ := window.sender.send env.receiverConnected e
        [Effect.send e]
    | none => []
  else []

/-- `TrayIconWindow::subproc` (src/sys/windows/window.rs, lines 138-206):
the subclass procedure, with the `static mut WM_TASKBARCREATED` threaded
explicitly.  Match arms are tried in source order. -/
def subproc (env : SubprocEnv) (wmTaskbarCreated : Nat)
    (window : TrayIconWindow T) (hwnd msg _wparam lparam : Nat) :
    SubprocOut T :=
  if msg = WM_USER_CREATE then
    { window := window
      wmTaskbarCreated := env.taskbarCreatedMsgId
      effects := [Effect.registerTaskbarCreated, Effect.addIcon hwnd]
      result := LResult.handled }
  else if msg = WM_MENUCOMMAND then
    { window := window
      wmTaskbarCreated := wmTaskbarCreated
      effects := [Effect.printMenu]
      result := LResult.handled }
  else if msg = WM_USER_TRAYICON then
    { window := window
      wmTaskbarCreated := wmTaskbarCreated
      effects := trayIconDispatch env window hwnd lparam
      result := LResult.handled }
  else if msg = WM_DESTROY then
    { window := window
      wmTaskbarCreated := wmTaskbarCreated
      effects := [Effect.postQuit]
      result := LResult.handled }
  else if msg = wmTaskbarCreated then
    { window := window
      wmTaskbarCreated := wmTaskbarCreated
      effects := [Effect.addIcon hwnd]
      result := LResult.handled }
  else
    { window := window
      wmTaskbarCreated := wmTaskbarCreated
      effects := []
      result := LResult.defSubclass }

/-- The control result of the conduit window procedure `winproc`: on
`WM_CREATE` it posts `WM_USER_CREATE` back to the window and returns 0,
anything else goes to `DefWindowProcA`. -/
inductive WinprocResult where
  | postUserCreate (target : Nat)
  | defWindowProc
deriving DecidableEq, Repr

/-- `TrayIconWindow::winproc` (src/sys/windows/window.rs, lines 119-135). -/
def winproc (hwnd msg : Nat) : WinprocResult :=
  if msg = WM_CREATE then WinprocResult.postUserCreate hwnd
  else WinprocResult.defWindowProc

/-- Environment consumed by `TrayIconWindow::new`: the handle returned by
`CreateWindowExA` (already cast `as u32`) and the `BOOL` returned by
`commctrl::SetWindowSubclass`. -/
structure NewEnv where
  createWindowResult : Nat
  setSubclassResult : Nat
deriving DecidableEq, Repr

/-- The boxed window record as first built inside `new`
(src/sys/windows/window.rs, lines 70-79): every field from the arguments
and `hwnd` still the null handle. -/
def initialWindow (sender : Sender T) (notify_icon : NotifyIcon)
    (hmenu : Option WinHMenu) (click_event double_click_event
    right_click_event : Option T)
    (menu_events : Option (List (Nat × T))) : TrayIconWindow T :=
  { hwnd := 0
    notify_icon := notify_icon
    hmenu := hmenu
    click_event := click_event
    double_click_event := double_click_event
    right_click_event := right_click_event
    sender := sender
    menu_events := menu_events }

/-- `TrayIconWindow::new` (src/sys/windows/window.rs, lines 39-116).
Returns the constructed adapter, or `Error::OsError` when window creation
returned a null handle or subclass attachment returned 0.  `window.hwnd`
is assigned only after both checks pass. -/
def TrayIconWindow.new (env : NewEnv) (sender : Sender T)
    (notify_icon : NotifyIcon) (hmenu : Option WinHMenu)
    (_parent_hwnd : Option Nat) (click_event double_click_event
    right_click_event : Option T)
    (menu_events : Option (List (Nat × T))) :
    Except Error (TrayIconWindow T) :=
  let window := initialWindow sender notify_icon hmenu click_event
    double_click_event right_click_event menu_events
  if env.createWindowResult = 0 then
    Except.error Error.osError
  else if env.setSubclassResult = 0 then
    Except.error Error.osError
  else
    Except.ok { window with hwnd := env.createWindowResult }

/-- `TrayIconBase::set_icon_from_buffer` for `TrayIconWindow`
(src/sys/windows/window.rs, lines 213-223).  `WinHIcon::new_from_buffer`
is an external decoding collaborator, passed in as `decode`.  Returns the
Rust `Result` together with the state of `self` after the call. -/
def set_icon_from_buffer
    (decode : List Nat → Option Nat → Option Nat → Option WinHIcon)
    (self : TrayIconWindow T) (buffer : List Nat)
    (width height : Option Nat) :
    Except Error Unit × TrayIconWindow T :=
  match decode buffer width height with
  | none => (Except.error Error.iconLoadingFailed, self)
  | some icon =>
      (Except.ok (),
       { self with notify_icon := self.notify_icon.set_icon icon })

/-- `Drop for TrayIconWindow` (src/sys/windows/window.rs, lines 226-234):
`SendMessageA(self.hwnd, WM_CLOSE, 0, 0)` — the target handle and message
code of the close request issued at drop. -/
def dropCloseMessage (self : TrayIconWindow T) : Nat × Nat :=
  (self.hwnd, WM_CLOSE)

/-- The channel values a subproc invocation attempts to send, in order. -/
def sends (effects : List (Effect T)) : List T :=
  effects.filterMap fun eff =>
    match eff with
    | Effect.send e => some e
    | _ => none

/-- The window handles a subproc invocation attaches the notify icon to,
in order. -/
def attachCalls (effects : List (Effect T)) : List Nat :=
  effects.filterMap fun eff =>
    match eff with
    | Effect.addIcon h => some h
    | _ => none

/-- The menu display (track) calls a subproc invocation issues, with their
window handle and screen coordinates, in order. -/
def trackCalls (effects : List (Effect T)) : List (Nat × Int × Int) :=
  effects.filterMap fun eff =>
    match eff with
    | Effect.track h x y => some (h, x, y)
    | _ => none

/-- On a `WM_USER_TRAYICON` message the subclass procedure runs exactly
the tray-icon dispatch and reports the message handled. -/
theorem subproc_trayicon (env : SubprocEnv) (wmtc : Nat)
    (window : TrayIconWindow T) (hwnd wparam lparam : Nat) :
    subproc env wmtc window hwnd WM_USER_TRAYICON wparam lparam =
      { window := window
        wmTaskbarCreated := wmtc
        effects := trayIconDispatch env window hwnd lparam
        result := LResult.handled } := by
  simp [subproc, WM_USER_TRAYICON, WM_USER_CREATE, WM_MENUCOMMAND, WM_USER]

/-- The channel values attempted by the tray-icon dispatch are exactly the
configured event for the sub-event code, when one is configured. -/
theorem sends_trayIconDispatch (env : SubprocEnv) (window : TrayIconWindow T)
    (hwnd lparam : Nat) :
    sends (trayIconDispatch env window hwnd lparam) =
      if lparam = WM_LBUTTONUP then window.click_event.toList
      else if lparam = WM_RBUTTONUP then window.right_click_event.toList
      else if lparam = WM_LBUTTONDBLCLK then window.double_click_event.toList
      else [] := by
  unfold trayIconDispatch
  by_cases h1 : lparam = WM_LBUTTONUP
  · simp only [h1, if_pos rfl]
    cases window.click_event <;> rfl
  · by_cases h2 : lparam = WM_RBUTTONUP
    · simp only [h1, h2, if_neg, if_pos rfl, if_false]
      cases window.right_click_event <;> cases window.hmenu <;> rfl
    · by_cases h3 : lparam = WM_LBUTTONDBLCLK
      · simp only [h1, h2, h3, if_pos rfl, if_false]
        cases window.double_click_event <;> rfl
      · simp only [h1, h2, h3, if_false]
        rfl

/-- C2: for every notification-icon interaction message, the handler sends
on the channel exactly the event value configured for that sub-event code
(click event for left-click, double-click event for double-click,
right-click event for right-click) and no other value; and if no event
value is configured for that interaction, nothing is sent
(`Option.toList` is the configured value when present and empty
otherwise). -/
theorem trayicon_sends_exactly_configured (env : SubprocEnv) (wmtc : Nat)
    (window : TrayIconWindow T) (hwnd wparam lparam : Nat) :
    sends (subproc env wmtc window hwnd WM_USER_TRAYICON wparam
        lparam).effects =
      if lparam = WM_LBUTTONUP then window.click_event.toList
      else if lparam = WM_RBUTTONUP then window.right_click_event.toList
      else if lparam = WM_LBUTTONDBLCLK then window.double_click_event.toList
      else [] := by
  rw [subproc_trayicon]
  exact sends_trayIconDispatch env window hwnd lparam

/-- C3: on a right-click interaction message, when a context menu is
configured and a right-click event is configured, the handler sends
exactly the configured right-click event and issues exactly one menu
display (track) call positioned at the current cursor coordinates. -/
theorem rightclick_sends_event_and_tracks_menu (env : SubprocEnv)
    (wmtc : Nat) (window : TrayIconWindow T) (hwnd wparam : Nat)
    (m : WinHMenu) (e : T) (hm : window.hmenu = some m)
    (he : window.right_click_event = some e) :
    sends (subproc env wmtc window hwnd WM_USER_TRAYICON wparam
        WM_RBUTTONUP).effects = [e] ∧
    trackCalls (subproc env wmtc window hwnd WM_USER_TRAYICON wparam
        WM_RBUTTONUP).effects = [(hwnd, env.cursorX, env.cursorY)] := by
  rw [subproc_trayicon]
  unfold trayIconDispatch
  rw [hm, he]
  exact ⟨rfl, rfl⟩

/-- Concrete environment used by the C3 witness: cursor at (10, 20),
registered taskbar message 49152, receiver connected. -/
def c3Env : SubprocEnv := ⟨10, 20, 49152, true⟩

/-- Concrete window used by the C3 witness: menu handle 3 configured,
right-click event 42 configured. -/
def c3Window : TrayIconWindow Nat :=
  ⟨7, ⟨⟨1⟩⟩, some ⟨3⟩, none, none, some 42, ⟨0⟩, none⟩

/-- C3 witness: a concrete window with a configured menu and right-click
event, at cursor position (10, 20). -/
theorem rightclick_sends_event_and_tracks_menu_witness :
    sends (subproc c3Env 49152 c3Window 7 WM_USER_TRAYICON 0
        WM_RBUTTONUP).effects = [42] ∧
    trackCalls (subproc c3Env 49152 c3Window 7 WM_USER_TRAYICON 0
        WM_RBUTTONUP).effects = [(7, 10, 20)] :=
  rightclick_sends_event_and_tracks_menu c3Env 49152 c3Window 7 0 ⟨3⟩ 42
    rfl rfl

/-- C4: whenever the handler receives the registered taskbar-recreated
broadcast message (registered message ids live in the range 0xC000-0xFFFF,
so they collide with none of the explicitly matched codes), it re-attaches
the notification icon — the same attach call `notify_icon.add(hwnd)` that
the window-created notification performs. -/
theorem taskbar_recreated_reattaches (env : SubprocEnv) (wmtc : Nat)
    (window : TrayIconWindow T) (hwnd msg wparam lparam : Nat)
    (hreg : 0xC000 ≤ wmtc) (hmsg : msg = wmtc) :
    (subproc env wmtc window hwnd msg wparam lparam).effects =
      [Effect.addIcon hwnd] ∧
    attachCalls (subproc env wmtc window hwnd msg wparam lparam).effects =
      attachCalls (subproc env wmtc window hwnd WM_USER_CREATE wparam
        lparam).effects := by
  subst hmsg
  have h1 : msg ≠ WM_USER_CREATE := by unfold WM_USER_CREATE WM_USER; omega
  have h2 : msg ≠ WM_MENUCOMMAND := by unfold WM_MENUCOMMAND; omega
  have h3 : msg ≠ WM_USER_TRAYICON := by
    unfold WM_USER_TRAYICON WM_USER; omega
  have h4 : msg ≠ WM_DESTROY := by unfold WM_DESTROY; omega
  refine ⟨?_, ?_⟩ <;>
    simp [subproc, h1, h2, h3, h4, attachCalls, List.filterMap]

/-- C4 witness: a concrete registered taskbar-recreated id 49153 with a
concrete window. -/
theorem taskbar_recreated_reattaches_witness :
    (subproc ⟨0, 0, 49153, true⟩ 49153
        (⟨7, ⟨⟨1⟩⟩, none, none, none, none, ⟨0⟩, none⟩ : TrayIconWindow Nat)
        7 49153 0 0).effects = [Effect.addIcon 7] ∧
    attachCalls (subproc ⟨0, 0, 49153, true⟩ 49153
        (⟨7, ⟨⟨1⟩⟩, none, none, none, none, ⟨0⟩, none⟩ : TrayIconWindow Nat)
        7 49153 0 0).effects =
      attachCalls (subproc ⟨0, 0, 49153, true⟩ 49153
        (⟨7, ⟨⟨1⟩⟩, none, none, none, none, ⟨0⟩, none⟩ : TrayIconWindow Nat)
        7 WM_USER_CREATE 0 0).effects :=
  taskbar_recreated_reattaches ⟨0, 0, 49153, true⟩ 49153
    ⟨7, ⟨⟨1⟩⟩, none, none, none, none, ⟨0⟩, none⟩ 7 49153 0 0
    (by decide) rfl

/-- C8: a failed channel send (receiver disconnected) is swallowed — the
subclass procedure's entire output is the same whether or not the receiver
is connected, the adapter state is never altered by message handling, and
no dispatch attempts a send more than once (no retry). -/
theorem send_failure_swallowed (env : SubprocEnv) (wmtc : Nat)
    (window : TrayIconWindow T) (hwnd msg wparam lparam : Nat) :
    subproc ⟨env.cursorX, env.cursorY, env.taskbarCreatedMsgId, false⟩ wmtc
        window hwnd msg wparam lparam =
      subproc ⟨env.cursorX, env.cursorY, env.taskbarCreatedMsgId, true⟩ wmtc
        window hwnd msg wparam lparam ∧
    (subproc env wmtc window hwnd msg wparam lparam).window = window ∧
    (sends (subproc env wmtc window hwnd msg wparam
        lparam).effects).length ≤ 1 := by
  refine ⟨rfl, ?_, ?_⟩
  · unfold subproc
    split_ifs <;> rfl
  · unfold subproc
    split_ifs with h1 h2 h3 h4 h5
    · simp [sends, List.filterMap]
    · simp [sends, List.filterMap]
    · show (sends (trayIconDispatch env window hwnd lparam)).length ≤ 1
      rw [sends_trayIconDispatch]
      split_ifs
      · cases window.click_event <;> simp
      · cases window.right_click_event <;> simp
      · cases window.double_click_event <;> simp
      · simp
    · simp [sends, List.filterMap]
    · simp [sends, List.filterMap]
    · simp [sends, List.filterMap]

/-- Concrete window with no configured events or menu, used for C7. -/
def c7Window : TrayIconWindow Nat :=
  ⟨7, ⟨⟨1⟩⟩, none, none, none, none, ⟨0⟩, none⟩

/-- C7 counterexample: the menu-command message code 0x0126 is none of the
four kinds the claim names (window-created 0x0401, notification-icon
interaction 0x0402, window-destroy 0x0002, taskbar-recreated — here the
static still holds its initial value 0xFFFFFFFF), yet `subproc` handles it
itself instead of forwarding it to the default subclass handler. -/
theorem unrecognized_forwarded_counterexample :
    (WM_MENUCOMMAND ≠ WM_USER_CREATE ∧ WM_MENUCOMMAND ≠ WM_USER_TRAYICON ∧
      WM_MENUCOMMAND ≠ WM_DESTROY ∧ WM_MENUCOMMAND ≠ 4294967295) ∧
    (subproc ⟨0, 0, 49152, true⟩ 4294967295 c7Window 7 WM_MENUCOMMAND 0
        0).result = LResult.handled := by
  decide

/-- C7 (amended): every message whose code is none of the five handled
kinds — window-created notification, menu-command, notification-icon
interaction, window-destroy, and the registered taskbar-recreated code —
is forwarded to the default subclass handler with no effects issued; and
in the conduit window procedure every message other than window-create
goes to the default window procedure. -/
theorem unrecognized_forwarded_amended (env : SubprocEnv) (wmtc : Nat)
    (window : TrayIconWindow T) (hwnd msg wparam lparam : Nat)
    (h1 : msg ≠ WM_USER_CREATE) (h2 : msg ≠ WM_MENUCOMMAND)
    (h3 : msg ≠ WM_USER_TRAYICON) (h4 : msg ≠ WM_DESTROY)
    (h5 : msg ≠ wmtc) :
    (subproc env wmtc window hwnd msg wparam lparam).result =
      LResult.defSubclass ∧
    (subproc env wmtc window hwnd msg wparam lparam).effects = [] ∧
    (msg ≠ WM_CREATE → winproc hwnd msg = WinprocResult.defWindowProc) := by
  refine ⟨?_, ?_, fun hc => ?_⟩
  · simp [subproc, h1, h2, h3, h4, h5]
  · simp [subproc, h1, h2, h3, h4, h5]
  · simp [winproc, hc]

/-- C7 (amended) witness: message code 999 with registered taskbar id
49152 is forwarded by both procedures. -/
theorem unrecognized_forwarded_amended_witness :
    (subproc ⟨0, 0, 49152, true⟩ 49152 c7Window 7 999 0 0).result =
      LResult.defSubclass ∧
    (subproc ⟨0, 0, 49152, true⟩ 49152 c7Window 7 999 0 0).effects = [] ∧
    winproc 7 999 = WinprocResult.defWindowProc := by
  have h := unrecognized_forwarded_amended ⟨0, 0, 49152, true⟩ 49152
    c7Window 7 999 0 0 (by decide) (by decide) (by decide) (by decide)
    (by decide)
  exact ⟨h.1, h.2.1, h.2.2 (by decide)⟩

/-- Concrete window for C1: a context menu is configured and the
identifier-to-event mapping maps menu-item identifier 1 to event value
42. -/
def c1Window : TrayIconWindow Nat :=
  ⟨7, ⟨⟨1⟩⟩, some ⟨3⟩, none, none, none, ⟨0⟩, some [(1, 42)]⟩

/-- C1: evaluating `subproc` at a menu-command message (menu item 1
selected, passed in `wparam`) with a configured non-empty
identifier-to-event mapping: the handler only prints and sends nothing on
the channel — `menu_events` is never consulted by the dispatch code. -/
theorem menucommand_sends_nothing :
    c1Window.menu_events = some [(1, 42)] ∧
    (subproc ⟨10, 20, 49152, true⟩ 49152 c1Window 7 WM_MENUCOMMAND 1
        0).effects = [Effect.printMenu] ∧
    sends (subproc ⟨10, 20, 49152, true⟩ 49152 c1Window 7 WM_MENUCOMMAND 1
        0).effects = [] := by
  decide

/-- C5: if the buffer fails to decode into a native icon,
`set_icon_from_buffer` returns the icon-decode-failure error and the
record, its stored `notify_icon` included, is exactly what it was; if the
buffer decodes, it returns Ok and swaps the icon on the notification
icon. -/
theorem set_icon_from_buffer_spec
    (decode : List Nat → Option Nat → Option Nat → Option WinHIcon)
    (self : TrayIconWindow T) (buffer : List Nat)
    (width height : Option Nat) :
    (decode buffer width height = none →
      set_icon_from_buffer decode self buffer width height =
        (Except.error Error.iconLoadingFailed, self)) ∧
    (∀ icon, decode buffer width height = some icon →
      set_icon_from_buffer decode self buffer width height =
        (Except.ok (),
         { self with notify_icon := self.notify_icon.set_icon icon })) := by
  constructor
  · intro h
    simp [set_icon_from_buffer, h]
  · intro icon h
    simp [set_icon_from_buffer, h]

/-- Concrete window used by the C5 witness, displaying icon 1. -/
def c5Window : TrayIconWindow Nat :=
  ⟨7, ⟨⟨1⟩⟩, none, none, none, none, ⟨0⟩, none⟩

/-- C5 witness: a decoder that rejects the buffer leaves the record
untouched and reports the decode failure; one that yields icon 9 swaps
it in. -/
theorem set_icon_from_buffer_spec_witness :
    set_icon_from_buffer (fun _ _ _ => none) c5Window [0, 1] none none =
      (Except.error Error.iconLoadingFailed, c5Window) ∧
    set_icon_from_buffer (fun _ _ _ => some ⟨9⟩) c5Window [0, 1] none none =
      (Except.ok (),
       { c5Window with notify_icon := c5Window.notify_icon.set_icon ⟨9⟩ }) :=
  ⟨(set_icon_from_buffer_spec (fun _ _ _ => none) c5Window [0, 1] none
      none).1 rfl,
   (set_icon_from_buffer_spec (fun _ _ _ => some ⟨9⟩) c5Window [0, 1] none
      none).2 ⟨9⟩ rfl⟩

/-- C9: `set_icon_from_buffer` mutates at most the `notify_icon` field —
whatever the decoder does, `hwnd`, `hmenu`, the three configured events,
the sender and the identifier-to-event mapping are unchanged after the
call. -/
theorem set_icon_from_buffer_frame
    (decode : List Nat → Option Nat → Option Nat → Option WinHIcon)
    (self : TrayIconWindow T) (buffer : List Nat)
    (width height : Option Nat) :
    ((set_icon_from_buffer decode self buffer width height).2).hwnd =
        self.hwnd ∧
    ((set_icon_from_buffer decode self buffer width height).2).hmenu =
        self.hmenu ∧
    ((set_icon_from_buffer decode self buffer width
        height).2).click_event = self.click_event ∧
    ((set_icon_from_buffer decode self buffer width
        height).2).double_click_event = self.double_click_event ∧
    ((set_icon_from_buffer decode self buffer width
        height).2).right_click_event = self.right_click_event ∧
    ((set_icon_from_buffer decode self buffer width height).2).sender =
        self.sender ∧
    ((set_icon_from_buffer decode self buffer width
        height).2).menu_events = self.menu_events := by
  unfold set_icon_from_buffer
  cases decode buffer width height <;> simp

/-- C6: construction returns the OS-error kind exactly when window
creation returned the null handle or subclass attachment returned
failure; otherwise it returns the constructed adapter, whose `hwnd` is
the created handle. -/
theorem new_oserror_iff (env : NewEnv) (sender : Sender T)
    (notify_icon : NotifyIcon) (hmenu : Option WinHMenu)
    (parent_hwnd : Option Nat)
    (click_event double_click_event right_click_event : Option T)
    (menu_events : Option (List (Nat × T))) :
    (TrayIconWindow.new env sender notify_icon hmenu parent_hwnd
        click_event double_click_event right_click_event menu_events =
      Except.error Error.osError ↔
        env.createWindowResult = 0 ∨ env.setSubclassResult = 0) ∧
    (¬(env.createWindowResult = 0 ∨ env.setSubclassResult = 0) →
      TrayIconWindow.new env sender notify_icon hmenu parent_hwnd
          click_event double_click_event right_click_event menu_events =
        Except.ok { initialWindow sender notify_icon hmenu click_event
            double_click_event right_click_event menu_events with
          hwnd := env.createWindowResult }) := by
  unfold TrayIconWindow.new
  by_cases h1 : env.createWindowResult = 0
  · simp [h1]
  · by_cases h2 : env.setSubclassResult = 0
    · simp [h1, h2]
    · simp [h1, h2]

/-- C6 witness: with created handle 5 and subclass success, construction
returns the adapter with `hwnd = 5`. -/
theorem new_oserror_iff_witness :
    TrayIconWindow.new (⟨5, 1⟩ : NewEnv) (⟨0⟩ : Sender Nat) ⟨⟨1⟩⟩ none none
        none none none none =
      Except.ok { initialWindow (⟨0⟩ : Sender Nat) ⟨⟨1⟩⟩ none none none
          none none with hwnd := 5 } :=
  (new_oserror_iff ⟨5, 1⟩ ⟨0⟩ ⟨⟨1⟩⟩ none none none none none none).2
    (by decide)

/-- C10: when window creation succeeds but subclass attachment fails,
construction returns the OS error while the record's `hwnd` field was
never assigned — it still holds the null handle — so the close request
issued when that record is dropped targets handle 0, not the window that
was created. -/
theorem subclass_failure_drop_targets_null (env : NewEnv)
    (sender : Sender T) (notify_icon : NotifyIcon)
    (hmenu : Option WinHMenu) (parent_hwnd : Option Nat)
    (click_event double_click_event right_click_event : Option T)
    (menu_events : Option (List (Nat × T)))
    (hcreate : env.createWindowResult ≠ 0)
    (hsub : env.setSubclassResult = 0) :
    TrayIconWindow.new env sender notify_icon hmenu parent_hwnd click_event
        double_click_event right_click_event menu_events =
      Except.error Error.osError ∧
    (initialWindow sender notify_icon hmenu click_event double_click_event
        right_click_event menu_events).hwnd = 0 ∧
    dropCloseMessage (initialWindow sender notify_icon hmenu click_event
        double_click_event right_click_event menu_events) = (0, WM_CLOSE) ∧
    (dropCloseMessage (initialWindow sender notify_icon hmenu click_event
        double_click_event right_click_event menu_events)).1 ≠
      env.createWindowResult := by
  refine ⟨?_, rfl, rfl, ?_⟩
  · simp [TrayIconWindow.new, hcreate, hsub]
  · exact fun h => hcreate h.symm

/-- C10 witness: created handle 5, subclass attachment failed. -/
theorem subclass_failure_drop_targets_null_witness :
    TrayIconWindow.new (⟨5, 0⟩ : NewEnv) (⟨0⟩ : Sender Nat) ⟨⟨1⟩⟩ none none
        none none none none = Except.error Error.osError ∧
    (initialWindow (⟨0⟩ : Sender Nat) ⟨⟨1⟩⟩ none none none none
        none).hwnd = 0 ∧
    dropCloseMessage (initialWindow (⟨0⟩ : Sender Nat) ⟨⟨1⟩⟩ none none none
        none none) = (0, WM_CLOSE) ∧
    (dropCloseMessage (initialWindow (⟨0⟩ : Sender Nat) ⟨⟨1⟩⟩ none none
        none none none)).1 ≠ 5 :=
  subclass_failure_drop_targets_null ⟨5, 0⟩ ⟨0⟩ ⟨⟨1⟩⟩ none none none none
    none none (by decide) rfl

end TrayIcon
